import Mathlib

/-!
Shallow embedding of the multi-tenant clinic SaaS core
(`core/models.py`, `core/views.py`, `core/serializers.py`,
`core/permissions.py`, `core/tenancy.py`, `core/middleware/consent.py`)
together with theorems settling the behavioural claims about tenant
isolation, row-level scoping, consent gating and the hashed national-ID
(CPF) field.

Conventions of the embedding:
* Database rows become Lean structures; querysets become `List`s.
* Django `None` / nullable foreign keys become `Option`.
* Python truthiness on objects / UUIDs / non-empty strings is modelled by
  `Option.isSome` (objects are always truthy, `None` is falsy).
* Machine-level 32-bit arithmetic inside SHA-256 is `Nat` arithmetic
  reduced modulo `2 ^ 32`.
* `str.isdigit` is modelled on the ASCII fragment by `Char.isDigit`
  (CPF inputs are ASCII digit/punctuation strings).
-/

namespace Clinica

/-! ## SHA-256 (as used by `hashlib.sha256(...).hexdigest()`)

A byte is a `Nat < 256`; a word is a `Nat < 2 ^ 32`. -/

def w32 (n : Nat) : Nat := n % 4294967296

def rotr32 (x n : Nat) : Nat := w32 ((x >>> n) ||| (x <<< (32 - n)))

def ssig0 (x : Nat) : Nat := (rotr32 x 7) ^^^ (rotr32 x 18) ^^^ (x >>> 3)

def ssig1 (x : Nat) : Nat := (rotr32 x 17) ^^^ (rotr32 x 19) ^^^ (x >>> 10)

def bsig0 (x : Nat) : Nat := (rotr32 x 2) ^^^ (rotr32 x 13) ^^^ (rotr32 x 22)

def bsig1 (x : Nat) : Nat := (rotr32 x 6) ^^^ (rotr32 x 11) ^^^ (rotr32 x 25)

def sha256k : List Nat :=
  [1116352408, 1899447441, 3049323471, 3921009573, 961987163,
   1508970993, 2453635748, 2870763221, 3624381080, 310598401,
   607225278, 1426881987, 1925078388, 2162078206, 2614888103,
   3248222580, 3835390401, 4022224774, 264347078, 604807628,
   770255983, 1249150122, 1555081692, 1996064986, 2554220882,
   2821834349, 2952996808, 3210313671, 3336571891, 3584528711,
   113926993, 338241895, 666307205, 773529912, 1294757372,
   1396182291, 1695183700, 1986661051, 2177026350, 2456956037,
   2730485921, 2820302411, 3259730800, 3345764771, 3516065817,
   3600352804, 4094571909, 275423344, 430227734, 506948616,
   659060556, 883997877, 958139571, 1322822218, 1537002063,
   1747873779, 1955562222, 2024104815, 2227730452, 2361852424,
   2428436474, 2756734187, 3204031479, 3329325298]

def sha256init : List Nat :=
  [1779033703, 3144134277, 1013904242, 2773480762,
   1359893119, 2600822924, 528734635, 1541459225]

/-- Append the `0x80` marker, zero padding to 56 mod 64, and the 64-bit
big-endian bit length. -/
def sha256pad (msg : List Nat) : List Nat :=
  let len := msg.length
  let zeros := (119 - len % 64) % 64
  msg ++ 0x80 :: (List.replicate zeros 0 ++
    (List.range 8).map (fun i => ((8 * len) >>> (8 * (7 - i))) % 256))

def bytesToWord (b : List Nat) : Nat := b.foldl (fun acc x => acc * 256 + x) 0

def blockWords (block : List Nat) : List Nat :=
  (List.range 16).map (fun i => bytesToWord ((block.drop (4 * i)).take 4))

/-- Message schedule: extend the 16 block words to 64 words. -/
def sha256schedule (block : List Nat) : List Nat :=
  (List.range 48).foldl
    (fun w _ =>
      let i := w.length
      w ++ [w32 (ssig1 (w.getD (i - 2) 0) + w.getD (i - 7) 0 +
                 ssig0 (w.getD (i - 15) 0) + w.getD (i - 16) 0)])
    (blockWords block)

/-- One round of the compression function on the state `[a,b,c,d,e,f,g,h]`;
`kw` is `K[t] + W[t]` already reduced. -/
def sha256round (st : List Nat) (kw : Nat) : List Nat :=
  let a := st.getD 0 0
  let b := st.getD 1 0
  let c := st.getD 2 0
  let d := st.getD 3 0
  let e := st.getD 4 0
  let f := st.getD 5 0
  let g := st.getD 6 0
  let h := st.getD 7 0
  let ch := (e &&& f) ^^^ ((e ^^^ 0xffffffff) &&& g)
  let maj := (a &&& b) ^^^ (a &&& c) ^^^ (b &&& c)
  let t1 := w32 (h + bsig1 e + ch + kw)
  let t2 := w32 (bsig0 a + maj)
  [w32 (t1 + t2), a, b, c, w32 (d + t1), e, f, g]

def sha256compress (h : List Nat) (block : List Nat) : List Nat :=
  let w := sha256schedule block
  let st := (List.range 64).foldl
    (fun st t => sha256round st (w32 (sha256k.getD t 0 + w.getD t 0))) h
  (List.range 8).map (fun i => w32 (h.getD i 0 + st.getD i 0))

/-- SHA-256 over a byte list, returning the 8 final 32-bit state words. -/
def sha256words (msg : List Nat) : List Nat :=
  let padded := sha256pad msg
  (List.range (padded.length / 64)).foldl
    (fun h i => sha256compress h ((padded.drop (64 * i)).take 64)) sha256init

def hexChar (n : Nat) : Char :=
  if n < 10 then Char.ofNat (48 + n) else Char.ofNat (87 + n)

def wordHex (x : Nat) : List Char :=
  (List.range 8).map (fun i => hexChar ((x >>> (4 * (7 - i))) % 16))

/-- `hashlib.sha256(s.encode("utf-8")).hexdigest()` for an ASCII string. -/
def sha256hexAscii (s : String) : String :=
  ⟨(sha256words (s.data.map Char.toNat)).flatMap wordHex⟩

/-! ## CPF helpers (`core/serializers.py` lines 21–35, `core/models.py`
`PatientProfile._build_cpf_hash`) -/

/-- `normalize_cpf` (serializers.py): drop everything that is not a digit;
the Python guard `if not value: return ""` is the `value == ""` branch. -/
def normalize_cpf (value : String) : String :=
  if value == "" then "" else ⟨value.data.filter Char.isDigit⟩

/-- `make_cpf_hash` (serializers.py): SHA-256 hexdigest of the normalized
CPF (also when the normalization is empty). -/
def make_cpf_hash (value : String) : String :=
  sha256hexAscii (normalize_cpf value)

/-- `PatientProfile._build_cpf_hash` (models.py): `None` when the CPF is
empty or normalizes to the empty digit string, otherwise the hexdigest of
the normalized digits. -/
def build_cpf_hash (cpf : String) : Option String :=
  if cpf == "" then none
  else
    let normalized : String := ⟨cpf.data.filter Char.isDigit⟩
    if normalized == "" then none
    else some (sha256hexAscii normalized)

/-! ## Data model (`core/models.py`)

Primary keys become `Nat`; nullable foreign keys become `Option`.
Fields that no modelled operation reads (timestamps, passwords, audit
ip/user-agent, clinical notes) are omitted. -/

abbrev ClinicId := Nat

abbrev UserId := Nat

abbrev DocId := Nat

/-- `CustomUser.Role` -/
inductive Role where
  | SAAS_ADMIN
  | CLINIC_OWNER
  | SECRETARY
  | DOCTOR
  | PATIENT
deriving DecidableEq, Repr

/-- `Clinic` (the tenant). -/
structure Clinic where
  id : ClinicId
  name : String
  schema_name : String
  is_active : Bool
deriving DecidableEq, Repr

/-- `CustomUser`: an authenticated principal.  Anonymous principals are
modelled as `none : Option User` (Django's `AnonymousUser` is the only
falsy / non-authenticated `request.user`). -/
structure User where
  id : UserId
  role : Role
  clinic : Option ClinicId
  is_superuser : Bool
  doctor_for_secretary : Option UserId
  email : String
deriving DecidableEq, Repr

/-- `LegalDocument` -/
inductive DocType where
  | TERMS
  | PRIVACY
  | CONSENT
deriving DecidableEq, Repr

structure LegalDocument where
  id : DocId
  doc_type : DocType
  version : String
  is_active : Bool
deriving DecidableEq, Repr

/-- `UserConsent` row: unique per `(user, document)` in the database. -/
structure UserConsent where
  user : UserId
  document : DocId
deriving DecidableEq, Repr

/-- `PatientProfile`. -/
structure PatientProfile where
  id : Nat
  user : Option UserId
  clinic : ClinicId
  cpf : String
  cpf_hash : Option String
  full_name : String
  phone : String
deriving DecidableEq, Repr

/-- `Appointment`. -/
structure Appointment where
  id : Nat
  clinic : ClinicId
  doctor : UserId
  patient : Nat
deriving DecidableEq, Repr

/-! ## `PatientProfile.save` (models.py lines 445–450) -/

/-- `save` recomputes `_build_cpf_hash()` and assigns it only when the
result is truthy (`if cpf_hash:`), i.e. only when it is a digest. -/
def patient_save (p : PatientProfile) : PatientProfile :=
  match build_cpf_hash p.cpf with
  | some h => { p with cpf_hash := some h }
  | none => p

/-! ## Object-level permission (`IsClinicStaffOrReadOnly`, views.py) -/

/-- `IsClinicStaffOrReadOnly.has_object_permission`: admin bypass,
otherwise compare `getattr(user.clinic, "id", None)` with
`getattr(obj, "clinic_id", None)`. -/
def has_object_permission (user : User) (objClinic : Option ClinicId) : Bool :=
  if user.is_superuser || user.role == Role.SAAS_ADMIN then true
  else user.clinic == objClinic

/-! ## Tenant filtering (`core/tenancy.py`) -/

/-- `TenantQuerySet.for_tenant`: `none()` for a `None` clinic, otherwise
`filter(clinic=clinic)`.  `clinicOf` abstracts the model's `clinic` FK. -/
def for_tenant (clinicOf : α → ClinicId) (qs : List α) (clinic : Option ClinicId) :
    List α :=
  match clinic with
  | none => []
  | some c => qs.filter (fun r => clinicOf r == c)

/-! ## List querysets (views.py)

`reqClinic` models `getattr(self.request, "clinic", None)` (set by the
tenant middleware); `x or y` on objects is `Option.orElse`. -/

/-- `PatientViewSet.get_queryset` -/
def patient_queryset (user : User) (reqClinic : Option ClinicId)
    (patients : List PatientProfile) : List PatientProfile :=
  if user.is_superuser || user.role == Role.SAAS_ADMIN then patients
  else
    match reqClinic.orElse (fun _ => user.clinic) with
    | none => []
    | some c => for_tenant (·.clinic) patients (some c)

/-- `AppointmentViewSet.get_queryset` -/
def appointment_queryset (user : User) (reqClinic : Option ClinicId)
    (appts : List Appointment) : List Appointment :=
  if user.is_superuser || user.role == Role.SAAS_ADMIN then appts
  else
    match reqClinic.orElse (fun _ => user.clinic) with
    | none => []
    | some c =>
      let qs := appts.filter (fun a => a.clinic == c)
      if user.role == Role.DOCTOR then qs.filter (fun a => a.doctor == user.id)
      else if user.role == Role.SECRETARY then
        match user.doctor_for_secretary with
        | some d => qs.filter (fun a => a.doctor == d)
        | none => []
      else qs

/-! ## Consent gate (`CustomUser.has_active_consent`,
`core/permissions.py`, `core/middleware/consent.py`, `ConsentAcceptView`) -/

/-- `CustomUser.has_active_consent`: vacuously true with no active
documents, otherwise a live count comparison between the user's consents
for active documents and the active documents. -/
def has_active_consent (uid : UserId) (docs : List LegalDocument)
    (consents : List UserConsent) : Bool :=
  let active := docs.filter (·.is_active)
  if active.isEmpty then true
  else
    (consents.filter
      (fun c => c.user == uid && active.any (fun d => d.id == c.document))).length
      == active.length

/-- `HasActiveConsent.has_permission`: anonymous is denied; superuser or
`SAAS_ADMIN` bypass; otherwise `user.has_active_consent`.  (The
`hasattr` fallback `return True` is unreachable for `CustomUser`.) -/
def consent_has_permission (user : Option User) (docs : List LegalDocument)
    (consents : List UserConsent) : Bool :=
  match user with
  | none => false
  | some u =>
    if u.is_superuser || u.role == Role.SAAS_ADMIN then true
    else has_active_consent u.id docs consents

def EXEMPT_PATH_PREFIXES : List String :=
  ["/admin/", "/auth/login/", "/auth/register/", "/api/auth/login/",
   "/api/auth/register/", "/api/legal-documents/active/",
   "/api/user-consents/", "/health/", "/static/", "/media/"]

/-- Python's `path.startswith(p)`: `p`'s characters are an initial
segment of `path`'s. -/
def path_startswith (path p : String) : Bool := p.data.isPrefixOf path.data

/-- `ConsentRequiredMiddleware.process_view`, as the allow/deny decision:
exempt paths and anonymous users pass; a user with role `SAAS_ADMIN`
passes; everyone else passes iff `user.has_active_consent`. -/
def consent_middleware_allows (path : String) (user : Option User)
    (docs : List LegalDocument) (consents : List UserConsent) : Bool :=
  if EXEMPT_PATH_PREFIXES.any (fun p => path_startswith path p) then true
  else
    match user with
    | none => true
    | some u =>
      if u.role == Role.SAAS_ADMIN then true
      else has_active_consent u.id docs consents

/-- `ConsentAcceptView.post`: for each active document,
`UserConsent.objects.get_or_create(user=user, document=doc)`; returns the
new consent table, the number of rows created, and `docs.count()`. -/
def consent_accept (uid : UserId) (docs : List LegalDocument)
    (consents : List UserConsent) : List UserConsent × Nat × Nat :=
  let active := docs.filter (·.is_active)
  let step := active.foldl
    (fun st d =>
      if st.1.any (fun c => c.user == uid && c.document == d.id) then st
      else (st.1 ++ [⟨uid, d.id⟩], st.2 + 1))
    (consents, 0)
  (step.1, step.2, active.length)

/-! ## Patient registration (`PatientRegistrationSerializer`,
serializers.py lines 105–242) -/

/-- The whole persisted state the modelled operations touch. -/
structure Store where
  clinics : List Clinic
  users : List User
  patients : List PatientProfile
  legal_documents : List LegalDocument
  user_consents : List UserConsent
deriving Repr

structure RegInput where
  clinic_schema_name : String
  full_name : String
  cpf : String
  phone : String
  email : String
  password : String
  password_confirm : String
  agree_terms : Bool
  agree_privacy : Bool
  agree_consent : Bool
deriving Repr

inductive RegError where
  | clinicNotFound
  | emailTaken
  | cpfTaken
  | passwordMismatch
  | lgpdNotAgreed
deriving DecidableEq, Repr

/-- `PatientRegistrationSerializer.validate`: resolve the active clinic by
slug, reject a taken e-mail, reject a duplicate `(clinic, cpf_hash)`
pair, require matching passwords and all three LGPD agreements. -/
def registration_validate (store : Store) (inp : RegInput) :
    Except RegError Clinic :=
  match store.clinics.find?
      (fun c => c.schema_name == inp.clinic_schema_name && c.is_active) with
  | none => .error .clinicNotFound
  | some clinic =>
    if store.users.any (fun u => u.email == inp.email) then .error .emailTaken
    else if store.patients.any
        (fun p => p.clinic == clinic.id
          && p.cpf_hash == some (make_cpf_hash inp.cpf)) then
      .error .cpfTaken
    else if !(inp.password == inp.password_confirm) then .error .passwordMismatch
    else if !(inp.agree_terms && inp.agree_privacy && inp.agree_consent) then
      .error .lgpdNotAgreed
    else .ok clinic

/-- `PatientRegistrationSerializer` used by `PatientRegisterView.post`:
`validate` then `create` — a PATIENT user, a `PatientProfile` created
through `save` (which builds the hash), and `get_or_create` of a consent
per active document.  `newUserId` / `newPatientId` stand for the fresh
primary keys the database would assign. -/
def register (store : Store) (inp : RegInput) (newUserId newPatientId : Nat) :
    Except RegError (Store × PatientProfile) :=
  match registration_validate store inp with
  | .error e => .error e
  | .ok clinic =>
    let user : User :=
      { id := newUserId, role := Role.PATIENT, clinic := some clinic.id,
        is_superuser := false, doctor_for_secretary := none, email := inp.email }
    let patient := patient_save
      { id := newPatientId, user := some newUserId, clinic := clinic.id,
        cpf := inp.cpf, cpf_hash := none, full_name := inp.full_name,
        phone := inp.phone }
    let consents := (consent_accept newUserId store.legal_documents
      store.user_consents).1
    .ok ({ store with
            users := store.users ++ [user],
            patients := store.patients ++ [patient],
            user_consents := consents },
         patient)

/-! ## Staff management (`StaffUserSerializer`, `StaffUserViewSet`) -/

/-- Input to the staff creation endpoint.  `role` is an *optional* field:
the model field has `default=Role.PATIENT`, so the DRF `ModelSerializer`
builds it with `required=False` and an omitted role never reaches
`validate_role`; the model default applies at `create`. -/
structure StaffInput where
  email : String
  username : Option String
  role : Option Role
  clinic_id : Option ClinicId
  crm : Option String
  specialty : Option String
deriving Repr

inductive StaffError where
  | roleNotAllowed
  | notAuthenticated
  | clinicIdRequired
  | clinicNotFound
  | ownerWithoutClinic
  | notStaffManager
  | crmForNonDoctor
deriving DecidableEq, Repr

/-- `StaffUserSerializer.validate_role`: reject `SAAS_ADMIN` and
`PATIENT`. -/
def validate_role (value : Role) : Except StaffError Role :=
  if value == Role.SAAS_ADMIN || value == Role.PATIENT then
    .error .roleNotAllowed
  else .ok value

/-- Python truthiness for an optional string (`None` and `""` falsy). -/
def truthyStr (o : Option String) : Bool :=
  match o with
  | none => false
  | some s => !(s == "")

/-- Field validation (`validate_role` runs only on a provided role) then
`StaffUserSerializer.validate`: resolve the target clinic according to
the requester's role, and forbid `crm`/`specialty` for non-DOCTOR
roles. Returns the attributes together with the resolved clinic. -/
def staff_validate (requester : Option User) (clinics : List Clinic)
    (inp : StaffInput) : Except StaffError (StaffInput × ClinicId) := do
  match inp.role with
  | some r => let _ ← validate_role r
  | none => pure ()
  match requester with
  | none => .error .notAuthenticated
  | some u =>
    let clinic ←
      if u.role == Role.SAAS_ADMIN || u.is_superuser then
        match inp.clinic_id with
        | none => .error .clinicIdRequired
        | some cid =>
          match clinics.find? (fun c => c.id == cid && c.is_active) with
          | none => .error .clinicNotFound
          | some c => pure c.id
      else if u.role == Role.CLINIC_OWNER then
        match u.clinic with
        | none => .error .ownerWithoutClinic
        | some cid => pure cid
      else .error .notStaffManager
    if inp.role == some Role.DOCTOR then
      pure ()
    else if truthyStr inp.crm || truthyStr inp.specialty then
      .error .crmForNonDoctor
    else
      pure ()
    .ok (inp, clinic)

/-- `StaffUserSerializer.create` after successful validation:
`CustomUser.objects.create(clinic=clinic, **validated_data)` — an absent
`role` key falls back to the model default `Role.PATIENT`. -/
def staff_create (attrs : StaffInput) (clinic : ClinicId) (newId : UserId) :
    User :=
  { id := newId, role := attrs.role.getD Role.PATIENT, clinic := some clinic,
    is_superuser := false, doctor_for_secretary := none, email := attrs.email }

/-- The creation path of `StaffUserViewSet` (permission check
`IsClinicOwnerOrSaaSAdmin.has_permission` then serializer validation then
`create`). -/
def staff_user_create (requester : Option User) (clinics : List Clinic)
    (inp : StaffInput) (newId : UserId) : Except StaffError User := do
  match requester with
  | none => .error .notAuthenticated
  | some u =>
    if u.is_superuser || u.role == Role.SAAS_ADMIN
        || u.role == Role.CLINIC_OWNER then
      let (attrs, clinic) ← staff_validate requester clinics inp
      .ok (staff_create attrs clinic newId)
    else
      .error .notStaffManager

/-! ## Claim theorems -/

/-- C1: `IsClinicStaffOrReadOnly.has_object_permission` on a tenant-scoped
object (whose `clinic_id` is `rc`) returns true exactly when the
principal is a superuser, has the `SAAS_ADMIN` role, or belongs to the
object's tenant; hence a non-admin principal whose tenant differs from
the object's tenant is denied, and a non-admin principal of the same
tenant is granted. -/
theorem hasObjectPermission_tenant_scope (u : User) (rc : ClinicId) :
    has_object_permission u (some rc) = true ↔
      u.is_superuser = true ∨ u.role = Role.SAAS_ADMIN ∨ u.clinic = some rc := by
  unfold has_object_permission
  by_cases hs : u.is_superuser <;> by_cases hr : u.role = Role.SAAS_ADMIN <;>
    simp [hs, hr]

/-- C10: tenant filtering is fail-closed: `for_tenant` applied to a `None`
clinic returns the empty queryset, and both the patient and the
appointment list operations return the empty list for a non-admin
principal with no clinic affiliation (the request clinic set by
`TenantMiddleware` is the user's clinic or `None`). -/
theorem tenant_filter_fail_closed {α : Type} (clinicOf : α → ClinicId)
    (qs : List α) (u : User) (reqClinic : Option ClinicId)
    (patients : List PatientProfile) (appts : List Appointment)
    (hsu : u.is_superuser = false) (hrole : u.role ≠ Role.SAAS_ADMIN)
    (hclinic : u.clinic = none)
    (hreq : reqClinic = none ∨ reqClinic = u.clinic) :
    for_tenant clinicOf qs none = []
    ∧ patient_queryset u reqClinic patients = []
    ∧ appointment_queryset u reqClinic appts = [] := by
  have hreq' : reqClinic = none := by
    rcases hreq with h | h
    · exact h
    · rw [h, hclinic]
  refine ⟨rfl, ?_, ?_⟩ <;>
    simp [patient_queryset, appointment_queryset, hsu, hrole, hclinic, hreq',
      Option.orElse]

theorem tenant_filter_fail_closed_witness :
    for_tenant (fun p : PatientProfile => p.clinic) [] none = []
    ∧ patient_queryset
        { id := 2, role := Role.SECRETARY, clinic := none,
          is_superuser := false, doctor_for_secretary := none, email := "s@x" }
        none
        [{ id := 1, user := none, clinic := 1, cpf := "111", cpf_hash := none,
           full_name := "P", phone := "1" }] = []
    ∧ appointment_queryset
        { id := 2, role := Role.SECRETARY, clinic := none,
          is_superuser := false, doctor_for_secretary := none, email := "s@x" }
        none [{ id := 1, clinic := 1, doctor := 3, patient := 1 }] = [] :=
  tenant_filter_fail_closed (fun p : PatientProfile => p.clinic) [] _ _ _ _
    rfl (by decide) rfl (Or.inl rfl)

/-- C4: counter-evaluation of the code at the failing input.
`PatientProfile.save` recomputes `_build_cpf_hash()` but assigns it only
under `if cpf_hash:`, so a write whose raw CPF normalizes to the empty
digit string (here `"---"`) keeps the stale hash of the previous value
instead of storing null, contradicting the recomputation requirement and
the method's own "always recompute" comment. -/
theorem patient_save_keeps_stale_hash :
    build_cpf_hash "---" = none
    ∧ patient_save
        { id := 1, user := none, clinic := 1, cpf := "---",
          cpf_hash := some "0123abcd", full_name := "P", phone := "1" }
      = { id := 1, user := none, clinic := 1, cpf := "---",
          cpf_hash := some "0123abcd", full_name := "P", phone := "1" } :=
  ⟨rfl, rfl⟩

/-- C9: counter-evaluation of the code at the failing input.
`StaffUserSerializer.validate_role` rejects explicit `SAAS_ADMIN` and
`PATIENT` roles, but the `role` field is optional (the model field has a
default), so a staff-creation request that omits `role` passes
validation and creates a principal with the model-default role
`PATIENT` — contradicting the endpoint's own documentation that only
`DOCTOR`, `SECRETARY` and `CLINIC_OWNER` can be created here. -/
theorem staff_create_defaults_to_patient :
    validate_role Role.SAAS_ADMIN = .error .roleNotAllowed
    ∧ validate_role Role.PATIENT = .error .roleNotAllowed
    ∧ staff_user_create
        (some { id := 1, role := Role.SAAS_ADMIN, clinic := none,
                is_superuser := false, doctor_for_secretary := none,
                email := "admin@x" })
        [{ id := 10, name := "A", schema_name := "a", is_active := true }]
        { email := "s@x", username := none, role := none,
          clinic_id := some 10, crm := none, specialty := none } 99
      = .ok { id := 99, role := Role.PATIENT, clinic := some 10,
              is_superuser := false, doctor_for_secretary := none,
              email := "s@x" } :=
  ⟨rfl, rfl, rfl⟩

/-- C5 counterexample: a superuser whose role is not `SAAS_ADMIN`, facing
one active legal document and holding no consent record, passes the
per-view consent permission but is denied by the consent middleware on a
non-exempt path — refuting the claim that both gates allow every
superuser request regardless of consent records. -/
theorem superuser_blocked_by_consent_middleware :
    consent_has_permission
      (some { id := 3, role := Role.CLINIC_OWNER, clinic := some 1,
              is_superuser := true, doctor_for_secretary := none,
              email := "root@x" })
      [{ id := 1, doc_type := DocType.TERMS, version := "1.0",
         is_active := true }] [] = true
    ∧ consent_middleware_allows "/api/patients/"
        (some { id := 3, role := Role.CLINIC_OWNER, clinic := some 1,
                is_superuser := true, doctor_for_secretary := none,
                email := "root@x" })
        [{ id := 1, doc_type := DocType.TERMS, version := "1.0",
           is_active := true }] [] = false := by
  constructor
  · rfl
  · decide

/-- C5 (amended): a superuser or `SAAS_ADMIN` principal always passes the
per-view consent permission regardless of consent records; the consent
middleware unconditionally allows principals whose role is `SAAS_ADMIN`,
while a superuser without that role remains subject to the middleware's
consent check. -/
theorem admin_consent_gate_bypass (u : User) (path : String)
    (docs : List LegalDocument) (consents : List UserConsent)
    (h : u.is_superuser = true ∨ u.role = Role.SAAS_ADMIN) :
    consent_has_permission (some u) docs consents = true
    ∧ (u.role = Role.SAAS_ADMIN →
       consent_middleware_allows path (some u) docs consents = true) := by
  constructor
  · rcases h with h | h <;> simp [consent_has_permission, h]
  · intro hr
    unfold consent_middleware_allows
    split
    · rfl
    · simp [hr]

theorem admin_consent_gate_bypass_witness :
    (({ id := 9, role := Role.SAAS_ADMIN, clinic := none,
        is_superuser := false, doctor_for_secretary := none,
        email := "ops@x" } : User).is_superuser = true
      ∨ ({ id := 9, role := Role.SAAS_ADMIN, clinic := none,
           is_superuser := false, doctor_for_secretary := none,
           email := "ops@x" } : User).role = Role.SAAS_ADMIN)
    ∧ consent_has_permission
        (some { id := 9, role := Role.SAAS_ADMIN, clinic := none,
                is_superuser := false, doctor_for_secretary := none,
                email := "ops@x" })
        [{ id := 1, doc_type := DocType.TERMS, version := "1.0",
           is_active := true }] [] = true
    ∧ consent_middleware_allows "/api/patients/"
        (some { id := 9, role := Role.SAAS_ADMIN, clinic := none,
                is_superuser := false, doctor_for_secretary := none,
                email := "ops@x" })
        [{ id := 1, doc_type := DocType.TERMS, version := "1.0",
           is_active := true }] [] = true :=
  ⟨Or.inr rfl,
   (admin_consent_gate_bypass _ "/api/patients/" _ _ (Or.inr rfl)).1,
   (admin_consent_gate_bypass _ "/api/patients/" _ _ (Or.inr rfl)).2 rfl⟩

/-- C2: row-level scoping for secretaries.  For a secretary `u` bound to
doctor `d`, `AppointmentViewSet.get_queryset` returns exactly the
appointments of the secretary's own clinic whose doctor is `d`; for a
secretary `v` with no doctor binding it returns the empty list — never
the whole tenant's appointments. -/
theorem secretary_appointment_scope (u v : User)
    (reqClinicU reqClinicV : Option ClinicId) (appts : List Appointment)
    (c c' : ClinicId) (d : UserId)
    (hurole : u.role = Role.SECRETARY) (husu : u.is_superuser = false)
    (hureq : reqClinicU = none ∨ reqClinicU = u.clinic)
    (huc : u.clinic = some c) (hud : u.doctor_for_secretary = some d)
    (hvrole : v.role = Role.SECRETARY) (hvsu : v.is_superuser = false)
    (hvreq : reqClinicV = none ∨ reqClinicV = v.clinic)
    (hvc : v.clinic = some c') (hvd : v.doctor_for_secretary = none) :
    appointment_queryset u reqClinicU appts
      = appts.filter (fun a => a.doctor == d && a.clinic == c)
    ∧ appointment_queryset v reqClinicV appts = [] := by
  have hueff : reqClinicU.orElse (fun _ => u.clinic) = some c := by
    rcases hureq with h | h <;> simp [h, huc, Option.orElse]
  have hveff : reqClinicV.orElse (fun _ => v.clinic) = some c' := by
    rcases hvreq with h | h <;> simp [h, hvc, Option.orElse]
  constructor
  · unfold appointment_queryset
    rw [hueff]
    simp [hurole, husu, hud, List.filter_filter]
  · unfold appointment_queryset
    rw [hveff]
    simp [hvrole, hvsu, hvd]

theorem secretary_appointment_scope_witness :
    appointment_queryset
      { id := 2, role := Role.SECRETARY, clinic := some 1,
        is_superuser := false, doctor_for_secretary := some 5, email := "s@x" }
      none
      [{ id := 11, clinic := 1, doctor := 5, patient := 1 },
       { id := 12, clinic := 1, doctor := 6, patient := 1 },
       { id := 13, clinic := 2, doctor := 5, patient := 2 }]
      = [{ id := 11, clinic := 1, doctor := 5, patient := 1 },
         { id := 12, clinic := 1, doctor := 6, patient := 1 },
         { id := 13, clinic := 2, doctor := 5, patient := 2 }].filter
          (fun a => a.doctor == 5 && a.clinic == 1)
    ∧ appointment_queryset
        { id := 3, role := Role.SECRETARY, clinic := some 1,
          is_superuser := false, doctor_for_secretary := none, email := "t@x" }
        none
        [{ id := 11, clinic := 1, doctor := 5, patient := 1 },
         { id := 12, clinic := 1, doctor := 6, patient := 1 },
         { id := 13, clinic := 2, doctor := 5, patient := 2 }] = [] :=
  secretary_appointment_scope _ _ none none _ 1 1 5
    rfl rfl (Or.inl rfl) rfl rfl rfl rfl (Or.inl rfl) rfl rfl

/-- C3: under the database uniqueness constraints (distinct document
primary keys, `unique_together (user, document)` on consents),
`CustomUser.has_active_consent` is true when no document is active, and
otherwise its live count comparison is true exactly when the user holds
a consent record for every currently-active document — so with `N`
active documents, consents for only `M < N` of them give `false` and
consents for all `N` give `true`. -/
theorem has_active_consent_iff_covers (uid : UserId)
    (docs : List LegalDocument) (consents : List UserConsent)
    (hd : ((docs.filter (·.is_active)).map (·.id)).Nodup)
    (hc : consents.Nodup) :
    has_active_consent uid docs consents = true ↔
      ∀ d ∈ docs, d.is_active = true →
        ∃ c ∈ consents, c.user = uid ∧ c.document = d.id := by
  unfold has_active_consent
  by_cases hemp : (docs.filter (·.is_active)).isEmpty
  · simp only [hemp, if_pos, true_iff]
    intro d hdocs hact
    exfalso
    have hmem : d ∈ docs.filter (·.is_active) :=
      List.mem_filter.mpr ⟨hdocs, by simp [hact]⟩
    rw [List.isEmpty_iff] at hemp
    simp [hemp] at hmem
  · simp only [hemp, if_neg, Bool.false_eq_true, not_false_iff, beq_iff_eq]
    set active := docs.filter (·.is_active) with hactive
    set F := consents.filter
      (fun c => c.user == uid && active.any (fun d => d.id == c.document))
      with hFdef
    have hFnodup : F.Nodup := hc.sublist (List.filter_sublist _)
    have hFuser : ∀ c ∈ F, c.user = uid := by
      intro c hcF
      have h := (List.mem_filter.mp hcF).2
      simp only [Bool.and_eq_true, beq_iff_eq] at h
      exact h.1
    have hFdoc : ∀ c ∈ F, c.document ∈ active.map (·.id) := by
      intro c hcF
      have h := (List.mem_filter.mp hcF).2
      simp only [Bool.and_eq_true, List.any_eq_true, beq_iff_eq] at h
      obtain ⟨d, hdact, hdid⟩ := h.2
      exact List.mem_map.mpr ⟨d, hdact, hdid⟩
    have hFdnodup : (F.map (·.document)).Nodup := by
      refine List.Nodup.map_on ?_ hFnodup
      intro x hx y hy hxy
      have hxu := hFuser x hx
      have hyu := hFuser y hy
      cases x; cases y; simp_all
    have hsub1 : F.map (·.document) ⊆ active.map (·.id) := by
      intro a ha
      obtain ⟨c, hcF, rfl⟩ := List.mem_map.mp ha
      exact hFdoc c hcF
    constructor
    · intro hlen
      have hperm : (F.map (·.document)).Perm (active.map (·.id)) :=
        (List.subperm_of_subset hFdnodup hsub1).perm_of_length_le
          (by simpa using Nat.le_of_eq hlen.symm)
      intro d hdocs hact
      have hdact : d ∈ active := List.mem_filter.mpr ⟨hdocs, by simp [hact]⟩
      have hdid : d.id ∈ F.map (·.document) :=
        hperm.symm.subset (List.mem_map.mpr ⟨d, hdact, rfl⟩)
      obtain ⟨c, hcF, hcd⟩ := List.mem_map.mp hdid
      exact ⟨c, List.mem_of_mem_filter hcF, hFuser c hcF, hcd⟩
    · intro hcov
      have hsub2 : active.map (·.id) ⊆ F.map (·.document) := by
        intro a ha
        obtain ⟨d, hdact, rfl⟩ := List.mem_map.mp ha
        have hdocs : d ∈ docs := List.mem_of_mem_filter hdact
        have hact : d.is_active = true := by
          have := (List.mem_filter.mp hdact).2
          simpa using this
        obtain ⟨c, hcc, hcu, hcd⟩ := hcov d hdocs hact
        have hcF : c ∈ F := by
          refine List.mem_filter.mpr ⟨hcc, ?_⟩
          simp only [Bool.and_eq_true, beq_iff_eq, List.any_eq_true]
          exact ⟨hcu, d, hdact, hcd.symm⟩
        exact List.mem_map.mpr ⟨c, hcF, hcd⟩
      have h1 := (List.subperm_of_subset hFdnodup hsub1).length_le
      have h2 := (List.subperm_of_subset (by rwa [hactive] at hd) hsub2).length_le
      simp only [List.length_map] at h1 h2
      omega

theorem has_active_consent_iff_covers_witness :
    has_active_consent 7
      [{ id := 1, doc_type := DocType.TERMS, version := "1.0",
         is_active := true },
       { id := 2, doc_type := DocType.PRIVACY, version := "1.0",
         is_active := true },
       { id := 3, doc_type := DocType.TERMS, version := "0.9",
         is_active := false }]
      [{ user := 7, document := 1 }, { user := 7, document := 2 },
       { user := 8, document := 1 }] = true :=
  (has_active_consent_iff_covers 7 _ _ (by decide) (by decide)).mpr (by decide)

/-! ### Auxiliary facts about the digest shape -/

theorem foldl8_length (l : List Nat) (g : List Nat → Nat → List Nat)
    (hg : ∀ st i, (g st i).length = 8) :
    ∀ init : List Nat, init.length = 8 → (l.foldl g init).length = 8 := by
  induction l with
  | nil => intro init h; exact h
  | cons a t ih => intro init _; exact ih (g init a) (hg init a)

theorem sha256compress_length (h block : List Nat) :
    (sha256compress h block).length = 8 := by
  simp [sha256compress]

theorem sha256words_length (msg : List Nat) : (sha256words msg).length = 8 := by
  unfold sha256words
  exact foldl8_length _ _ (fun st i => sha256compress_length st _) sha256init rfl

theorem wordHex_length (x : Nat) : (wordHex x).length = 8 := by
  simp [wordHex]

theorem flatMap_wordHex_length (ws : List Nat) :
    (ws.flatMap wordHex).length = 8 * ws.length := by
  induction ws with
  | nil => simp
  | cons a t ih =>
    simp only [List.flatMap_cons, List.length_append, wordHex_length, ih,
      List.length_cons]
    omega

theorem sha256hexAscii_length (s : String) : (sha256hexAscii s).length = 64 := by
  show ((sha256words (s.data.map Char.toNat)).flatMap wordHex).length = 64
  rw [flatMap_wordHex_length, sha256words_length]

theorem normalize_cpf_eq (v : String) :
    normalize_cpf v = ⟨v.data.filter Char.isDigit⟩ := by
  unfold normalize_cpf
  split
  · rename_i h
    have hv : v = "" := by simpa using h
    subst hv
    rfl
  · rfl

set_option maxRecDepth 100000

/-- C7 counterexample: for the serializer helper `make_cpf_hash`, an
input with no digit characters normalizes to the empty string yet still
yields a hex digest — the SHA-256 of the empty string — rather than a
null hash. -/
theorem make_cpf_hash_empty_digest :
    normalize_cpf "---" = ""
    ∧ make_cpf_hash "---"
      = "e3b0c44298fc1c149afbf4c8996fb92427ae41e4649b934ca495991b7852b855" :=
  ⟨by decide, by decide⟩

/-- C7 (amended): both hash builders normalize by stripping non-digit
characters, so inputs with the same digit sequence get the same 64-char
hex digest — in particular for `"123.456.789-09"` and `"12345678909"`;
the model-layer builder `_build_cpf_hash` yields null exactly when the
normalization is empty, while the serializer helper `make_cpf_hash`
always returns a digest (that of the empty string on an empty
normalization). -/
theorem cpf_hash_normalization (v1 v2 v : String)
    (hnorm : normalize_cpf v1 = normalize_cpf v2) :
    make_cpf_hash v1 = make_cpf_hash v2
    ∧ make_cpf_hash "123.456.789-09" = make_cpf_hash "12345678909"
    ∧ (make_cpf_hash v).length = 64
    ∧ (normalize_cpf v = "" → build_cpf_hash v = none)
    ∧ (normalize_cpf v ≠ "" → build_cpf_hash v = some (make_cpf_hash v)) := by
  refine ⟨?_, ?_, sha256hexAscii_length _, ?_, ?_⟩
  · unfold make_cpf_hash
    rw [hnorm]
  · unfold make_cpf_hash
    have h : normalize_cpf "123.456.789-09" = normalize_cpf "12345678909" := by
      decide
    rw [h]
  · intro h
    rw [normalize_cpf_eq] at h
    unfold build_cpf_hash
    split
    · rfl
    · simp [h]
  · intro h
    have hv : ¬ (v == "") = true := by
      intro hv
      rw [beq_iff_eq] at hv
      subst hv
      exact h rfl
    rw [normalize_cpf_eq] at h
    unfold build_cpf_hash make_cpf_hash
    rw [if_neg hv, normalize_cpf_eq]
    simp [h]

theorem cpf_hash_normalization_witness :
    normalize_cpf "123.456.789-09" = normalize_cpf "12345678909"
    ∧ make_cpf_hash "123.456.789-09" = make_cpf_hash "12345678909"
    ∧ (make_cpf_hash "529.982.247-25").length = 64
    ∧ build_cpf_hash "529.982.247-25"
        = some (make_cpf_hash "529.982.247-25") :=
  let h := cpf_hash_normalization "123.456.789-09" "12345678909"
    "529.982.247-25" (by decide)
  ⟨by decide, h.1, h.2.2.1, h.2.2.2.2 (by decide)⟩

/-- Characterization of the `get_or_create` loop of `ConsentAcceptView`:
when the processed documents have distinct ids, the loop appends exactly
one consent per document lacking one, and counts them. -/
theorem accept_foldl_spec (uid : UserId) (l : List LegalDocument) :
    ∀ (cs : List UserConsent) (n : Nat), (l.map (·.id)).Nodup →
      l.foldl
        (fun st d =>
          if st.1.any (fun c => c.user == uid && c.document == d.id) then st
          else (st.1 ++ [⟨uid, d.id⟩], st.2 + 1))
        (cs, n)
      = (cs ++ (l.filter
            (fun d => !cs.any
              (fun c => c.user == uid && c.document == d.id))).map
            (fun d => (⟨uid, d.id⟩ : UserConsent)),
         n + (l.filter
            (fun d => !cs.any
              (fun c => c.user == uid && c.document == d.id))).length) := by
  induction l with
  | nil => intro cs n _; simp
  | cons d t ih =>
    intro cs n hnodup
    rw [List.map_cons, List.nodup_cons] at hnodup
    obtain ⟨hdid, htnodup⟩ := hnodup
    rw [List.foldl_cons]
    by_cases hP : cs.any (fun c => c.user == uid && c.document == d.id)
    · rw [if_pos hP, ih cs n htnodup, List.filter_cons]
      simp [hP]
    · rw [if_neg hP]
      dsimp only
      rw [ih _ _ htnodup, List.filter_cons]
      have hsame : t.filter
          (fun d' => !(cs ++ [(⟨uid, d.id⟩ : UserConsent)]).any
            (fun c => c.user == uid && c.document == d'.id))
          = t.filter
            (fun d' => !cs.any
              (fun c => c.user == uid && c.document == d'.id)) := by
        refine List.filter_congr ?_
        intro d' hd'
        have hne : d.id ≠ d'.id := by
          intro he
          exact hdid (he ▸ List.mem_map.mpr ⟨d', hd', rfl⟩)
        simp [List.any_append, hne]
      rw [hsame]
      simp only [hP, Bool.not_false, if_pos, List.map_cons, List.length_cons,
        Prod.mk.injEq, List.append_assoc, List.singleton_append]
      exact ⟨trivial, by omega⟩

/-- Closed form of `consent_accept` under distinct active-document ids. -/
theorem consent_accept_eq (uid : UserId) (docs : List LegalDocument)
    (cs : List UserConsent)
    (hnodup : ((docs.filter (·.is_active)).map (·.id)).Nodup) :
    consent_accept uid docs cs
      = (cs ++ ((docs.filter (·.is_active)).filter
            (fun d => !cs.any
              (fun c => c.user == uid && c.document == d.id))).map
            (fun d => (⟨uid, d.id⟩ : UserConsent)),
         ((docs.filter (·.is_active)).filter
            (fun d => !cs.any
              (fun c => c.user == uid && c.document == d.id))).length,
         (docs.filter (·.is_active)).length) := by
  simp only [consent_accept]
  rw [accept_foldl_spec uid _ cs 0 hnodup]
  simp

/-- C8: `ConsentAcceptView.post` creates exactly one consent record per
currently-active document the principal lacks (and no others), reports
that number as `created` and the number of active documents as
`total_active`; invoking it again on the resulting state creates
nothing, returns `created = 0` with the same `total_active`, and leaves
the consent table identical. -/
theorem consent_accept_idempotent (uid : UserId) (docs : List LegalDocument)
    (consents : List UserConsent)
    (hnodup : ((docs.filter (·.is_active)).map (·.id)).Nodup) :
    (consent_accept uid docs consents).1
      = consents ++ ((docs.filter (·.is_active)).filter
          (fun d => !consents.any
            (fun c => c.user == uid && c.document == d.id))).map
          (fun d => (⟨uid, d.id⟩ : UserConsent))
    ∧ (consent_accept uid docs consents).2.1
      = ((docs.filter (·.is_active)).filter
          (fun d => !consents.any
            (fun c => c.user == uid && c.document == d.id))).length
    ∧ (consent_accept uid docs consents).2.2
      = (docs.filter (·.is_active)).length
    ∧ consent_accept uid docs (consent_accept uid docs consents).1
      = ((consent_accept uid docs consents).1, 0,
         (docs.filter (·.is_active)).length) := by
  have h := consent_accept_eq uid docs consents hnodup
  refine ⟨by rw [h], by rw [h], by rw [h], ?_⟩
  have h2 := consent_accept_eq uid docs (consent_accept uid docs consents).1
    hnodup
  have hcov : (docs.filter (·.is_active)).filter
      (fun d => !(consent_accept uid docs consents).1.any
        (fun c => c.user == uid && c.document == d.id)) = [] := by
    rw [List.filter_eq_nil_iff]
    intro d hd
    rw [h]
    by_cases hP : consents.any
        (fun c => c.user == uid && c.document == d.id)
    · simp [List.any_append, hP]
    · have hmem : (⟨uid, d.id⟩ : UserConsent)
          ∈ ((docs.filter (·.is_active)).filter
            (fun d => !consents.any
              (fun c => c.user == uid && c.document == d.id))).map
            (fun d => (⟨uid, d.id⟩ : UserConsent)) :=
        List.mem_map.mpr ⟨d, List.mem_filter.mpr ⟨hd, by simp [hP]⟩, rfl⟩
      have hany : ((consents ++ ((docs.filter (·.is_active)).filter
          (fun d => !consents.any
            (fun c => c.user == uid && c.document == d.id))).map
          (fun d => (⟨uid, d.id⟩ : UserConsent))).any
          (fun c => c.user == uid && c.document == d.id)) = true := by
        rw [List.any_eq_true]
        exact ⟨⟨uid, d.id⟩, List.mem_append_right _ hmem, by simp⟩
      rw [hany]
      decide
  rw [h2, hcov]
  simp

theorem consent_accept_idempotent_witness :
    (consent_accept 7
      [{ id := 1, doc_type := DocType.TERMS, version := "1.0",
         is_active := true },
       { id := 2, doc_type := DocType.PRIVACY, version := "1.0",
         is_active := true }]
      [{ user := 7, document := 1 }]).1
      = [{ user := 7, document := 1 }, { user := 7, document := 2 }]
    ∧ consent_accept 7
        [{ id := 1, doc_type := DocType.TERMS, version := "1.0",
           is_active := true },
         { id := 2, doc_type := DocType.PRIVACY, version := "1.0",
           is_active := true }]
        (consent_accept 7
          [{ id := 1, doc_type := DocType.TERMS, version := "1.0",
             is_active := true },
           { id := 2, doc_type := DocType.PRIVACY, version := "1.0",
             is_active := true }]
          [{ user := 7, document := 1 }]).1
      = ((consent_accept 7
          [{ id := 1, doc_type := DocType.TERMS, version := "1.0",
             is_active := true },
           { id := 2, doc_type := DocType.PRIVACY, version := "1.0",
             is_active := true }]
          [{ user := 7, document := 1 }]).1, 0, 2) :=
  let h := consent_accept_idempotent 7
    [{ id := 1, doc_type := DocType.TERMS, version := "1.0",
       is_active := true },
     { id := 2, doc_type := DocType.PRIVACY, version := "1.0",
       is_active := true }]
    [{ user := 7, document := 1 }] (by decide)
  ⟨h.1, h.2.2.2⟩

theorem patient_save_clinic (p : PatientProfile) :
    (patient_save p).clinic = p.clinic := by
  unfold patient_save
  split <;> rfl

/-- C6: a registration whose CPF has the same normalization as an
existing patient record of the *same* tenant fails with the
duplicate-CPF conflict error (creating nothing), while a registration
with that same normalized CPF in a *different* tenant passes validation
and creates exactly one new patient record in that tenant. -/
theorem cpf_conflict_per_tenant (store : Store) (inpA inpB : RegInput)
    (clinicA clinicB : Clinic) (p : PatientProfile) (praw : String)
    (nU nP mU mP : Nat)
    (hfindA : store.clinics.find?
      (fun c => c.schema_name == inpA.clinic_schema_name && c.is_active)
      = some clinicA)
    (hfindB : store.clinics.find?
      (fun c => c.schema_name == inpB.clinic_schema_name && c.is_active)
      = some clinicB)
    (hp : p ∈ store.patients) (hpclinic : p.clinic = clinicB.id)
    (hphash : p.cpf_hash = some (make_cpf_hash praw))
    (hnormB : normalize_cpf praw = normalize_cpf inpB.cpf)
    (hnormA : normalize_cpf praw = normalize_cpf inpA.cpf)
    (hAB : clinicA.id ≠ clinicB.id)
    (hemailA : ∀ u ∈ store.users, u.email ≠ inpA.email)
    (hemailB : ∀ u ∈ store.users, u.email ≠ inpB.email)
    (hnodupA : ∀ q ∈ store.patients, q.clinic = clinicA.id →
      q.cpf_hash ≠ some (make_cpf_hash inpA.cpf))
    (hpwA : inpA.password = inpA.password_confirm)
    (hterms : inpA.agree_terms = true) (hpriv : inpA.agree_privacy = true)
    (hcons : inpA.agree_consent = true) :
    register store inpB nU nP = .error .cpfTaken
    ∧ (register store inpA mU mP).toOption.map
        (fun r => (r.1.patients, r.2.clinic))
      = some (store.patients ++
          [patient_save
            { id := mP, user := some mU, clinic := clinicA.id,
              cpf := inpA.cpf, cpf_hash := none,
              full_name := inpA.full_name, phone := inpA.phone }],
         clinicA.id) := by
  constructor
  · have hEB : store.users.any (fun u => u.email == inpB.email) = false := by
      rw [List.any_eq_false]
      intro u hu
      simp [hemailB u hu]
    have hPB : store.patients.any
        (fun q => q.clinic == clinicB.id
          && q.cpf_hash == some (make_cpf_hash inpB.cpf)) = true := by
      rw [List.any_eq_true]
      refine ⟨p, hp, ?_⟩
      have hhash : make_cpf_hash praw = make_cpf_hash inpB.cpf := by
        unfold make_cpf_hash
        rw [hnormB]
      simp [hpclinic, hphash, hhash]
    unfold register registration_validate
    rw [hfindB]
    simp [hEB, hPB]
  · have hEA : store.users.any (fun u => u.email == inpA.email) = false := by
      rw [List.any_eq_false]
      intro u hu
      simp [hemailA u hu]
    have hPA : store.patients.any
        (fun q => q.clinic == clinicA.id
          && q.cpf_hash == some (make_cpf_hash inpA.cpf)) = false := by
      rw [List.any_eq_false]
      intro q hq
      by_cases hqc : q.clinic = clinicA.id
      · simp [hqc, hnodupA q hq hqc]
      · simp [hqc]
    unfold register registration_validate
    rw [hfindA]
    simp only [hEA, hPA, hpwA, hterms, hpriv, hcons, Bool.false_eq_true,
      if_neg, if_pos, beq_self_eq_true, Bool.not_true, Bool.and_self,
      ite_false, ite_true, not_false_iff, Except.toOption, Option.map_some]
    simp [patient_save_clinic]

theorem cpf_conflict_per_tenant_witness :
    register
      { clinics := [{ id := 1, name := "A", schema_name := "a",
                      is_active := true },
                    { id := 2, name := "B", schema_name := "b",
                      is_active := true }],
        users := [],
        patients := [{ id := 1, user := none, clinic := 2,
                       cpf := "123.456.789-09",
                       cpf_hash := some (make_cpf_hash "123.456.789-09"),
                       full_name := "P", phone := "1" }],
        legal_documents := [], user_consents := [] }
      { clinic_schema_name := "b", full_name := "Q", cpf := "12345678909",
        phone := "2", email := "q@x", password := "secret1",
        password_confirm := "secret1", agree_terms := true,
        agree_privacy := true, agree_consent := true } 5 6
      = .error .cpfTaken
    ∧ (register
        { clinics := [{ id := 1, name := "A", schema_name := "a",
                        is_active := true },
                      { id := 2, name := "B", schema_name := "b",
                        is_active := true }],
          users := [],
          patients := [{ id := 1, user := none, clinic := 2,
                         cpf := "123.456.789-09",
                         cpf_hash := some (make_cpf_hash "123.456.789-09"),
                         full_name := "P", phone := "1" }],
          legal_documents := [], user_consents := [] }
        { clinic_schema_name := "a", full_name := "R", cpf := "12345678909",
          phone := "3", email := "r@x", password := "secret1",
          password_confirm := "secret1", agree_terms := true,
          agree_privacy := true, agree_consent := true } 7 8).toOption.map
        (fun r => (r.1.patients, r.2.clinic))
      = some ([{ id := 1, user := none, clinic := 2,
                 cpf := "123.456.789-09",
                 cpf_hash := some (make_cpf_hash "123.456.789-09"),
                 full_name := "P", phone := "1" }] ++
          [patient_save
            { id := 8, user := some 7, clinic := 1, cpf := "12345678909",
              cpf_hash := none, full_name := "R", phone := "3" }],
         1) :=
  cpf_conflict_per_tenant _ _ _
    { id := 1, name := "A", schema_name := "a", is_active := true }
    { id := 2, name := "B", schema_name := "b", is_active := true }
    { id := 1, user := none, clinic := 2, cpf := "123.456.789-09",
      cpf_hash := some (make_cpf_hash "123.456.789-09"),
      full_name := "P", phone := "1" } "123.456.789-09" 5 6 7 8
    rfl rfl (by simp) rfl rfl (by decide) (by decide) (by decide)
    (by simp) (by simp) (by decide) rfl rfl rfl rfl

end Clinica
